import Mathlib

/-!
Verification of the gamification/progression engine of the progress_api
repository (src/progress/gamification.py and src/progress/models.py),
via a shallow embedding in Lean 4.

Conventions of the embedding:
- Python `int(x)` truncation toward zero is `int_trunc`.
- Timestamps and calendar dates are integers (seconds resp. day numbers).
- Python float literals 1.1, 1.25, 2.5, 1.3, ... are embedded as exact
  rationals; every concrete input used in a counterexample was checked to
  be exactly representable in binary floating point, so the rational and
  float evaluations agree there.
- Code that can raise a runtime exception is embedded in `Except`.
- Django model rows are structures; the append-only XPLog table is a list.
-/

namespace ProgressApp

/-- Python `int(x)`: truncation toward zero. -/
def int_trunc (q : ℚ) : ℤ :=
  if 0 ≤ q then ⌊q⌋ else ⌈q⌉

/-- Task.DIFFICULTY_CHOICES from models.py plus `other` for any string
outside the four choices (the code paths use dict `.get` defaults). -/
inductive Difficulty
  | easy
  | medium
  | hard
  | expert
  | other
  deriving DecidableEq, Fintype

/-- Task.PRIORITY_CHOICES from models.py plus `other` for any string
outside the four choices. -/
inductive Priority
  | low
  | medium
  | high
  | urgent
  | other
  deriving DecidableEq, Fintype

/-- `base_xp` dict in GamificationEngine.calculate_task_xp; `.get(_, 25)`. -/
def base_xp : Difficulty → ℤ
  | .easy => 10
  | .medium => 20
  | .hard => 40
  | .expert => 100
  | .other => 25

/-- `priority_bonus` dict in GamificationEngine.calculate_task_xp;
`.get(_, 1.0)`. -/
def priority_bonus : Priority → ℚ
  | .low => 1
  | .medium => 11/10
  | .high => 5/4
  | .urgent => 5/2
  | .other => 1

/-- The six values GamificationEngine.get_timing_modifier can return. -/
def timing_values : List ℚ := [13/10, 23/20, 1, 4/5, 3/5, 2/5]

/-- GamificationEngine.calculate_task_xp, parameterised by the task's
difficulty, its category's xp_multiplier, its priority, and the timing
modifier (the code reads these from the task and `get_timing_modifier`).
Each multiplication is followed by Python `int()` truncation, and the
result is clamped to a minimum of 1. -/
def calculate_task_xp (d : Difficulty) (mult : ℚ) (p : Priority) (timing : ℚ) : ℤ :=
  let xp1 : ℤ := int_trunc ((base_xp d : ℚ) * mult)
  let xp2 : ℤ := int_trunc ((xp1 : ℚ) * priority_bonus p)
  let xp3 : ℤ := int_trunc ((xp2 : ℚ) * timing)
  max xp3 1

/-- GamificationEngine.get_timing_modifier. Timestamps in seconds.
When `due_date - created_at` is zero the Python division
`time_to_due.total_seconds() / total_time.total_seconds()` raises
ZeroDivisionError, embedded as `Except.error`. -/
def get_timing_modifier (created_at : ℤ) (due_date : Option ℤ) (now : ℤ) :
    Except String ℚ :=
  match due_date with
  | none => .ok 1
  | some due =>
    let time_to_due : ℤ := due - now
    let total_time : ℤ := due - created_at
    if total_time = 0 then
      .error "ZeroDivisionError: division by zero"
    else
      let r : ℚ := (time_to_due : ℚ) / (total_time : ℚ)
      .ok (if 1/2 ≤ r then 13/10
        else if 1/4 ≤ r then 23/20
        else if 0 ≤ r then 1
        else if -(1/4) ≤ r then 4/5
        else if -(1/2) ≤ r then 3/5
        else 2/5)

/-- `min_time_requirements` dict in GamificationEngine.can_complete_task,
in seconds; `.get(_, timedelta(hours=1))`. -/
def min_time_requirement : Difficulty → ℤ
  | .easy => 900
  | .medium => 3600
  | .hard => 14400
  | .expert => 86400
  | .other => 3600

/-- The difficulty string interpolated into the rejection message
(`task.difficulty`). -/
def difficulty_name : Difficulty → String
  | .easy => "easy"
  | .medium => "medium"
  | .hard => "hard"
  | .expert => "expert"
  | .other => "unknown"

/-- The wait-time fragment built in GamificationEngine.can_complete_task:
hours by floor division by 3600, minutes from the remainder. `remaining`
is positive at every call site, so Lean integer division matches the
Python float floor-division-then-int. -/
def wait_time_string (remaining : ℤ) : String :=
  let hours := remaining / 3600
  let minutes := (remaining % 3600) / 60
  if 0 < hours then
    toString hours ++ " hours and " ++ toString minutes ++ " minutes"
  else
    toString minutes ++ " minutes"

/-- GamificationEngine.can_complete_task. Tasks without a due_date return
immediately; otherwise the elapsed time since creation is compared with
the difficulty-scaled minimum. -/
def can_complete_task (d : Difficulty) (created_at : ℤ) (due_date : Option ℤ)
    (now : ℤ) : Bool × String :=
  match due_date with
  | none => (true, "Task can be completed")
  | some _ =>
    let min_time := min_time_requirement d
    let time_since_created := now - created_at
    if time_since_created < min_time then
      (false, "Task created too recently. Wait " ++
        wait_time_string (min_time - time_since_created) ++
        " before completing this " ++ difficulty_name d ++ " task.")
    else
      (true, "Task can be completed")

/-- ProgressProfile.calculate_xp_for_level from models.py:
0 for level ≤ 1, else `sum(i*100 for i in range(2, level+1))`. -/
def calculate_xp_for_level (level : ℕ) : ℕ :=
  if level ≤ 1 then 0 else ∑ i ∈ Finset.Icc 2 level, i * 100

/-- The while loop of ProgressProfile.update_level, with explicit fuel:
`while total_xp >= calculate_xp_for_level(level + 1): level += 1`. -/
def update_level_go (xp : ℤ) : ℕ → ℕ → ℕ
  | 0, level => level
  | fuel + 1, level =>
    if (calculate_xp_for_level (level + 1) : ℤ) ≤ xp then
      update_level_go xp fuel (level + 1)
    else
      level

/-- ProgressProfile.update_level: starts at level 1 and climbs while the
cumulative requirement for the next level is met. `xp.toNat + 1` units of
fuel always suffice (proved in `update_level_go_spec`). -/
def update_level (xp : ℤ) : ℕ :=
  update_level_go xp (xp.toNat + 1) 1

/-- The ProgressProfile model row (models.py): the fields the engine
mutates, with their declared defaults captured by `fresh_profile`. -/
structure ProgressProfile where
  total_xp : ℤ
  current_level : ℕ
  current_streak : ℕ
  longest_streak : ℕ
  last_activity_date : Option ℤ
  deriving DecidableEq

/-- A freshly created ProgressProfile row: every field takes its model
default (total_xp=0, current_level=0, streaks 0, last_activity_date
null), as created by the post_save signal or `get_or_create`. -/
def fresh_profile : ProgressProfile :=
  { total_xp := 0
    current_level := 0
    current_streak := 0
    longest_streak := 0
    last_activity_date := none }

/-- One XPLog row (models.py): the fields relevant to the ledger. -/
structure XPLog where
  action : String
  xp_earned : ℤ
  deriving DecidableEq

/-- A user's gamification state: the profile row plus the append-only
XPLog ledger. -/
structure EngineState where
  profile : ProgressProfile
  logs : List XPLog
  deriving DecidableEq

/-- Sum of xp_earned over the XPLog ledger. -/
def ledger_total (logs : List XPLog) : ℤ :=
  (logs.map XPLog.xp_earned).sum

/-- The cached-total invariant: profile.total_xp equals the ledger sum. -/
def xp_consistent (s : EngineState) : Prop :=
  s.profile.total_xp = ledger_total s.logs

instance (s : EngineState) : Decidable (xp_consistent s) := by
  unfold xp_consistent
  infer_instance

/-- GamificationEngine.update_streak, `today` as a day number. Returns
the new state and the bonus XP. Mirrors the code: no-op when already
counted today; streak 1 on first activity or after a gap, increment when
last activity was yesterday; longest_streak raised to the new streak; on
a streak divisible by 7 a bonus of streak*5 is logged as a streak_bonus
XPLog row (but never added to profile.total_xp by this method). -/
def update_streak (today : ℤ) (s : EngineState) : EngineState × ℤ :=
  let p := s.profile
  if p.last_activity_date = some today then
    (s, 0)
  else
    let cs : ℕ :=
      match p.last_activity_date with
      | none => 1
      | some last => if last = today - 1 then p.current_streak + 1 else 1
    let ls := max p.longest_streak cs
    let bonus : ℤ := if 0 < cs ∧ cs % 7 = 0 then (cs : ℤ) * 5 else 0
    let logs :=
      if 0 < cs ∧ cs % 7 = 0 then
        s.logs ++ [{ action := "streak_bonus", xp_earned := bonus }]
      else
        s.logs
    let p' := { p with
      current_streak := cs
      longest_streak := ls
      last_activity_date := some today }
    ({ profile := p', logs := logs }, bonus)

/-- Repeated `update_streak` calls, one on each day a task is completed
(award_task_xp invokes update_streak on the completion day). -/
def run_streak_updates (dates : List ℤ) (s : EngineState) : EngineState :=
  dates.foldl (fun t d => (update_streak d t).1) s

/-- The scanning loop of GamificationEngine.recalculate_streak over the
sorted deduplicated completion dates, carrying (current_streak,
longest_streak, last_date). -/
def recalc_go : List ℤ → ℕ → ℕ → Option ℤ → ℕ × ℕ
  | [], cur, long, _ => (cur, long)
  | d :: rest, cur, long, last =>
    if last = none ∨ last = some (d - 1) then
      recalc_go rest (cur + 1) long (some d)
    else
      recalc_go rest 1 (max long cur) (some d)

/-- GamificationEngine.recalculate_streak on the sorted deduplicated
completion-date history; returns (current_streak, longest_streak,
last_activity_date). Empty history resets everything (the early-return
branch); otherwise the loop runs and the final `max` is applied. -/
def recalculate_streak (dates : List ℤ) : ℕ × ℕ × Option ℤ :=
  match dates with
  | [] => (0, 0, none)
  | _ :: _ =>
    let r := recalc_go dates 0 0 none
    (r.1, max r.2 r.1, dates.getLast?)

/-- The performance-score computation in
GamificationEngine.generate_weekly_review: timing_score is 0 when no
tasks, else min(((early*2 + on_time*1.5)/total)*50, 100);
productivity_score is min((total/7)*20, 50); their sum is truncated by
Python `int()`. -/
def performance_score (early on_time total : ℕ) : ℤ :=
  let timing_score : ℚ :=
    if 0 < total then
      min ((((early : ℚ) * 2 + (on_time : ℚ) * (3/2)) / (total : ℚ)) * 50) 100
    else 0
  let productivity_score : ℚ := min (((total : ℚ) / 7) * 20) 50
  int_trunc (timing_score + productivity_score)

/-- The same score written the way the spec states it: the two mins
applied to the raw timing and productivity formulas, then truncation. -/
def performance_score_formula (early on_time total : ℕ) : ℤ :=
  int_trunc
    (min (if total = 0 then 0
          else (((early : ℚ) * 2 + (on_time : ℚ) * (3/2)) / (total : ℚ)) * 50) 100 +
     min (((total : ℚ) / 7) * 20) 50)

/-- One UserMission row (models.py). The model's fields relevant to
progress tracking are target_value, current_progress, status (one of
"active", "completed", "failed", "abandoned"; default "active"),
completed_at and xp_reward. The model has NO is_completed column;
MissionService.update_mission_progress nevertheless reads and writes
`is_completed`, which on a Python instance is a plain dynamic attribute —
modelled here as the extra component `is_completed` so the service's
writes can be expressed (its initial value on a fresh row is `false`
only in the sense that the attribute is absent; the ORM filter
`is_completed=False` would in fact raise FieldError). -/
structure UserMission where
  target_value : ℤ
  current_progress : ℤ
  status : String
  completed_at : Option ℤ
  xp_reward : ℤ
  is_completed : Bool
  deriving DecidableEq

/-- MissionService._award_mission_rewards: appends a mission_complete
XPLog row, adds the reward to profile.total_xp and recomputes the level. -/
def award_mission_rewards (s : EngineState) (m : UserMission) : EngineState :=
  let total := s.profile.total_xp + m.xp_reward
  { profile := { s.profile with
      total_xp := total
      current_level := update_level total }
    logs := s.logs ++ [{ action := "mission_complete", xp_earned := m.xp_reward }] }

/-- MissionService.update_mission_progress over the user's missions of
the matching type. Missions with the dynamic `is_completed` attribute
already true are excluded (the code's filter); for each remaining
mission the progress is incremented capped at target_value, and on
reaching the target the code sets `is_completed` (not `status`) and
`completed_at`, collects the mission, and awards the rewards in the same
pass. Returns (all missions after the pass, missions completed in this
call, resulting engine state). -/
def update_mission_progress (now progress_value : ℤ)
    (missions : List UserMission) (s : EngineState) :
    List UserMission × List UserMission × EngineState :=
  missions.foldl
    (fun acc m =>
      if m.is_completed then
        (acc.1 ++ [m], acc.2.1, acc.2.2)
      else
        let m1 := { m with
          current_progress := min (m.current_progress + progress_value) m.target_value }
        if m1.target_value ≤ m1.current_progress then
          let m2 := { m1 with is_completed := true, completed_at := some now }
          (acc.1 ++ [m2], acc.2.1 ++ [m2], award_mission_rewards acc.2.2 m2)
        else
          (acc.1 ++ [m1], acc.2.1, acc.2.2))
    ([], [], s)

/-- Position of a difficulty in the order easy < medium < hard < expert
used by the spec; `other` (an unknown difficulty string) is outside the
order. -/
def difficulty_rank : Difficulty → ℕ
  | .easy => 0
  | .medium => 1
  | .hard => 2
  | .expert => 3
  | .other => 4

/-- Sortedness of a date list relative to an optional previous date:
the shape of the invariant carried while walking completion dates. -/
def opt_chain : Option ℤ → List ℤ → Prop
  | none, ds => List.Chain' (· < ·) ds
  | some x, ds => List.Chain (· < ·) x ds

/-- A concrete consistent engine state: 100 cached XP backed by one
100-XP task_complete ledger row; a 6-day streak last active on day 9. -/
def streak_day6_state : EngineState :=
  { profile :=
      { total_xp := 100
        current_level := 1
        current_streak := 6
        longest_streak := 6
        last_activity_date := some 9 }
    logs := [{ action := "task_complete", xp_earned := 100 }] }

/-- A concrete active mission one step away from its target. -/
def near_done_mission : UserMission :=
  { target_value := 3
    current_progress := 2
    status := "active"
    completed_at := none
    xp_reward := 50
    is_completed := false }

/-! ### Helper lemmas -/

lemma int_trunc_of_nonneg {q : ℚ} (h : 0 ≤ q) : int_trunc q = ⌊q⌋ :=
  if_pos h

lemma calculate_xp_for_level_mono {a b : ℕ} (hab : a ≤ b) :
    calculate_xp_for_level a ≤ calculate_xp_for_level b := by
  unfold calculate_xp_for_level
  by_cases ha : a ≤ 1
  · rw [if_pos ha]
    exact Nat.zero_le _
  · have hb : ¬ b ≤ 1 := fun hb => ha (hab.trans hb)
    rw [if_neg ha, if_neg hb]
    exact Finset.sum_le_sum_of_subset (Finset.Icc_subset_Icc_right hab)

lemma hundred_mul_le_calculate_xp_for_level {L : ℕ} (hL : 2 ≤ L) :
    L * 100 ≤ calculate_xp_for_level L := by
  unfold calculate_xp_for_level
  rw [if_neg (by omega)]
  exact Finset.single_le_sum (f := fun i => i * 100) (fun i _ => Nat.zero_le _)
    (Finset.mem_Icc.mpr ⟨hL, le_refl L⟩)

lemma update_level_go_spec (xp : ℤ) :
    ∀ (fuel level : ℕ), 1 ≤ level →
      (calculate_xp_for_level level : ℤ) ≤ xp →
      xp < (fuel : ℤ) + (level : ℤ) →
      1 ≤ update_level_go xp fuel level ∧
      (calculate_xp_for_level (update_level_go xp fuel level) : ℤ) ≤ xp ∧
      xp < (calculate_xp_for_level (update_level_go xp fuel level + 1) : ℤ) := by
  intro fuel
  induction fuel with
  | zero =>
    intro level h1 hle hfuel
    refine ⟨by simpa [update_level_go] using h1, by simpa [update_level_go] using hle, ?_⟩
    have h2 : (level : ℤ) ≤ (calculate_xp_for_level (level + 1) : ℤ) := by
      have hub : level ≤ (level + 1) * 100 := by omega
      exact_mod_cast hub.trans (hundred_mul_le_calculate_xp_for_level (by omega))
    have h3 : xp < (level : ℤ) := by push_cast at hfuel; omega
    simp only [update_level_go]
    omega
  | succ n ih =>
    intro level h1 hle hfuel
    simp only [update_level_go]
    split
    next hcond =>
      exact ih (level + 1) (by omega) hcond (by push_cast at hfuel ⊢; omega)
    next hcond =>
      exact ⟨h1, hle, not_le.mp hcond⟩

/-! ### Claim theorems -/

/-- C5 counterexample: the code's level curve gives
calculate_xp_for_level(3) = 500 and calculate_xp_for_level(4) = 900, not
the 600 and 1200 the claim states (the claim's own formula
`sum(i*100 for i in 2..level)` yields 200+300 = 500 and 200+300+400 =
900; the repository's tests assert 500 and 900). -/
theorem calculate_xp_for_level_values_cex :
    calculate_xp_for_level 3 = 500 ∧ calculate_xp_for_level 4 = 900 ∧
    (500 : ℕ) ≠ 600 ∧ (900 : ℕ) ≠ 1200 := by decide

/-- C5 (amended): for every level ≥ 1, calculate_xp_for_level(level) =
sum(i*100 for i in 2..level); in particular the values at levels 1..4
are 0, 200, 500 and 900. -/
theorem calculate_xp_for_level_spec :
    ∀ level : ℕ, 1 ≤ level →
      calculate_xp_for_level level = ∑ i ∈ Finset.Icc 2 level, i * 100 ∧
      calculate_xp_for_level 1 = 0 ∧ calculate_xp_for_level 2 = 200 ∧
      calculate_xp_for_level 3 = 500 ∧ calculate_xp_for_level 4 = 900 := by
  intro level h
  refine ⟨?_, by decide, by decide, by decide, by decide⟩
  unfold calculate_xp_for_level
  by_cases hl : level ≤ 1
  · have h1 : level = 1 := by omega
    subst h1
    rw [if_pos (by omega), Finset.Icc_eq_empty (by omega), Finset.sum_empty]
  · rw [if_neg hl]

theorem calculate_xp_for_level_spec_witness :
    1 ≤ 4 ∧ calculate_xp_for_level 4 = ∑ i ∈ Finset.Icc 2 4, i * 100 :=
  ⟨by decide, (calculate_xp_for_level_spec 4 (by decide)).1⟩

/-- C4 counterexample: a freshly created ProgressProfile has total_xp = 0
but current_level = 0 (the model default), not 1, so the claimed
invariant "current_level = largest L with total_xp ≥
calculate_xp_for_level(L)" fails at creation time: L = 1 already
satisfies calculate_xp_for_level(1) = 0 ≤ 0. -/
theorem fresh_profile_level_cex :
    fresh_profile.current_level = 0 ∧ fresh_profile.total_xp = 0 ∧
    (calculate_xp_for_level 1 : ℤ) ≤ fresh_profile.total_xp ∧
    fresh_profile.current_level < 1 := by decide

/-- C4 (amended): whenever update_level runs (as it does at the end of
every XP-touching engine operation), it sets current_level to the
largest L with total_xp ≥ calculate_xp_for_level(L); a freshly created
profile however carries the model default current_level = 0 until the
first such operation. -/
theorem update_level_greatest :
    ∀ xp : ℤ, 0 ≤ xp →
      1 ≤ update_level xp ∧
      (calculate_xp_for_level (update_level xp) : ℤ) ≤ xp ∧
      ∀ L : ℕ, (calculate_xp_for_level L : ℤ) ≤ xp → L ≤ update_level xp := by
  intro xp hxp
  have hstart : (calculate_xp_for_level 1 : ℤ) ≤ xp := by
    simpa [calculate_xp_for_level] using hxp
  have hfuel : xp < ((xp.toNat + 1 : ℕ) : ℤ) + ((1 : ℕ) : ℤ) := by
    have h := Int.toNat_of_nonneg hxp
    push_cast
    omega
  have h := update_level_go_spec xp (xp.toNat + 1) 1 (le_refl 1) hstart hfuel
  refine ⟨h.1, h.2.1, ?_⟩
  intro L hL
  by_contra hcon
  push_neg at hcon
  have h3 : calculate_xp_for_level (update_level xp + 1) ≤ calculate_xp_for_level L :=
    calculate_xp_for_level_mono hcon
  have h4 : (calculate_xp_for_level (update_level xp + 1) : ℤ) ≤
      (calculate_xp_for_level L : ℤ) := by exact_mod_cast h3
  have h5 := h.2.2
  simp only [update_level] at *
  omega

theorem update_level_greatest_witness :
    (0 : ℤ) ≤ 250 ∧ (calculate_xp_for_level (update_level 250) : ℤ) ≤ 250 :=
  ⟨by norm_num, (update_level_greatest 250 (by norm_num)).2.1⟩

/-- C3: with due_date = created_at the code's ratio denominator
`total_time.total_seconds()` is zero and the division raises
ZeroDivisionError instead of returning the neutral 1.0 that the
no-deadline branch returns. -/
theorem get_timing_modifier_div_zero :
    get_timing_modifier 0 (some 0) 0 =
      Except.error "ZeroDivisionError: division by zero" ∧
    get_timing_modifier 0 none 0 = Except.ok 1 :=
  ⟨rfl, rfl⟩

/-- C9 counterexample: a week with 7 tasks all completed early scores
timing 100 plus productivity 20, i.e. performance_score = 120 > 100, so
the score is not bounded by 100. -/
theorem performance_score_range_cex :
    performance_score 7 0 7 = 120 ∧ ¬ performance_score 7 0 7 ≤ 100 := by
  norm_num [performance_score, int_trunc, min_def]

/-- C9 (amended): performance_score equals the spec's formula
min(timing_score, 100) + min(productivity_score, 50) truncated to an
integer, and lies in the range 0 to 150 (not 0 to 100). -/
theorem performance_score_bounds :
    ∀ early on_time total : ℕ,
      performance_score early on_time total =
        performance_score_formula early on_time total ∧
      0 ≤ performance_score early on_time total ∧
      performance_score early on_time total ≤ 150 := by
  intro early on_time total
  have key : ∀ q : ℚ, 0 ≤ q → q ≤ 150 → 0 ≤ int_trunc q ∧ int_trunc q ≤ 150 := by
    intro q h0 h1
    rw [int_trunc, if_pos h0]
    constructor
    · exact Int.le_floor.mpr (by exact_mod_cast h0)
    · have h2 : ⌊q⌋ ≤ ⌊(150 : ℚ)⌋ := Int.floor_le_floor h1
      have h3 : ⌊(150 : ℚ)⌋ = 150 := by norm_num
      omega
  set T : ℚ :=
    if 0 < total then
      min ((((early : ℚ) * 2 + (on_time : ℚ) * (3/2)) / (total : ℚ)) * 50) 100
    else 0 with hTdef
  set P : ℚ := min (((total : ℚ) / 7) * 20) 50 with hPdef
  have hps : performance_score early on_time total = int_trunc (T + P) := rfl
  have hT : 0 ≤ T ∧ T ≤ 100 := by
    rw [hTdef]
    split
    · exact ⟨le_min (by positivity) (by norm_num), min_le_right _ _⟩
    · norm_num
  have hP : 0 ≤ P ∧ P ≤ 50 :=
    ⟨le_min (by positivity) (by norm_num), min_le_right _ _⟩
  have heq : performance_score early on_time total =
      performance_score_formula early on_time total := by
    unfold performance_score performance_score_formula
    rcases Nat.eq_zero_or_pos total with h | h
    · subst h
      norm_num
    · rw [if_pos h, if_neg (by omega)]
  have hb := key (T + P) (add_nonneg hT.1 hP.1) (by linarith [hT.2, hP.2])
  exact ⟨heq, hps ▸ hb.1, hps ▸ hb.2⟩

/-- C1: update_streak (called directly, or from award_task_xp) appends a
streak_bonus XPLog row on every streak divisible by 7 but never adds the
bonus to profile.total_xp, so right after the operation the cached total
(100) no longer equals the ledger sum (135): starting from a consistent
state with a 6-day streak last active yesterday, completing on day 10
yields streak 7 and a 35-XP streak_bonus row. -/
theorem update_streak_breaks_ledger :
    xp_consistent streak_day6_state ∧
    (update_streak 10 streak_day6_state).2 = 35 ∧
    (update_streak 10 streak_day6_state).1.profile.total_xp = 100 ∧
    ledger_total (update_streak 10 streak_day6_state).1.logs = 135 ∧
    ¬ xp_consistent (update_streak 10 streak_day6_state).1 := by decide

/-- C2 counterexample: a task with no due_date bypasses the dwell-time
check entirely: a medium task completed 0 seconds after creation (far
less than the 1-hour minimum) is allowed, contradicting the claim that
can_complete_task returns false for every task completed before its
dwell time. -/
theorem can_complete_task_no_due_cex :
    (can_complete_task .medium 0 none 0).1 = true ∧
    (0 : ℤ) - 0 < min_time_requirement .medium := by decide

/-- C2 (amended): for every task WITH a due_date, can_complete_task
returns false together with the remaining-wait message exactly when the
elapsed time since creation is below the difficulty-scaled minimum
(easy 15min, medium 1h, hard 4h, expert 1 day, default 1h), and true
otherwise; a task without a due_date is always allowed. -/
theorem can_complete_task_dwell :
    ∀ (d : Difficulty) (created due now : ℤ),
      can_complete_task d created none now = (true, "Task can be completed") ∧
      (now - created < min_time_requirement d →
        can_complete_task d created (some due) now =
          (false, "Task created too recently. Wait " ++
            wait_time_string (min_time_requirement d - (now - created)) ++
            " before completing this " ++ difficulty_name d ++ " task.")) ∧
      (min_time_requirement d ≤ now - created →
        can_complete_task d created (some due) now =
          (true, "Task can be completed")) := by
  intro d created due now
  refine ⟨rfl, ?_, ?_⟩
  · intro h
    simp only [can_complete_task]
    rw [if_pos h]
  · intro h
    simp only [can_complete_task]
    rw [if_neg (not_lt.mpr h)]

theorem can_complete_task_dwell_witness :
    ((0 : ℤ) - 0 < min_time_requirement .medium) ∧
    can_complete_task .medium 0 (some 3600) 0 =
      (false, "Task created too recently. Wait " ++
        wait_time_string (min_time_requirement .medium - ((0 : ℤ) - 0)) ++
        " before completing this " ++ difficulty_name .medium ++ " task.") :=
  ⟨by decide, (can_complete_task_dwell .medium 0 3600 0).2.1 (by decide)⟩

/-- C6 counterexample: with difficulty easy, priority high and timing
modifier 1.0 (all values exactly representable in floating point), a
category multiplier of 2.0 yields int(20*1.25) = 25 XP while multiplier
1.0 yields int(10*1.25) = 12 XP — not exactly double, because Python
int() truncates after every multiplication step. -/
theorem calculate_task_xp_double_cex :
    calculate_task_xp .easy 2 .high 1 = 25 ∧
    calculate_task_xp .easy 1 .high 1 = 12 ∧
    (25 : ℤ) ≠ 2 * 12 := by
  norm_num [calculate_task_xp, int_trunc, base_xp, priority_bonus]

set_option maxHeartbeats 3200000 in
/-- C6 (amended): for every difficulty, priority and code-producible
timing modifier, doubling the category multiplier from 1.0 to 2.0 yields
at least double and at most double-plus-3 XP; exact doubling fails in
general because of the per-step integer truncation. -/
theorem calculate_task_xp_double_bounds :
    ∀ (d : Difficulty) (p : Priority), ∀ t ∈ timing_values,
      2 * calculate_task_xp d 1 p t ≤ calculate_task_xp d 2 p t ∧
      calculate_task_xp d 2 p t ≤ 2 * calculate_task_xp d 1 p t + 3 := by
  intro d p t ht
  simp only [timing_values, List.mem_cons, List.not_mem_nil, or_false] at ht
  rcases ht with rfl | rfl | rfl | rfl | rfl | rfl <;> cases d <;> cases p <;>
    norm_num [calculate_task_xp, int_trunc, base_xp, priority_bonus]

theorem calculate_task_xp_double_bounds_witness :
    (1 : ℚ) ∈ timing_values ∧
    2 * calculate_task_xp .easy 1 .high 1 ≤ calculate_task_xp .easy 2 .high 1 :=
  ⟨by norm_num [timing_values],
   (calculate_task_xp_double_bounds .easy .high 1 (by norm_num [timing_values])).1⟩

/-- C10: MissionService.update_mission_progress does cap progress at
target_value and returns the mission as completed, but it marks
completion by writing a dynamic `is_completed` attribute that the
UserMission model does not define — the model's `status` column stays
"active" and never transitions to "completed" (and the ORM filter
`is_completed=False` would raise FieldError against this model). -/
theorem update_mission_progress_status_bug :
    (update_mission_progress 100 1 [near_done_mission]
        { profile := fresh_profile, logs := [] }).1 =
      [{ target_value := 3, current_progress := 3, status := "active",
         completed_at := some 100, xp_reward := 50, is_completed := true }] ∧
    (update_mission_progress 100 1 [near_done_mission]
        { profile := fresh_profile, logs := [] }).2.1 =
      [{ target_value := 3, current_progress := 3, status := "active",
         completed_at := some 100, xp_reward := 50, is_completed := true }] ∧
    (update_mission_progress 100 1 [near_done_mission]
        { profile := fresh_profile, logs := [] }).2.2.logs =
      [{ action := "mission_complete", xp_earned := 50 }] ∧
    ("active" : String) ≠ "completed" := by decide

lemma int_trunc_ge_of_le {n : ℤ} {q : ℚ} (hn : 0 ≤ n) (h : (n : ℚ) ≤ q) :
    n ≤ int_trunc q := by
  have h0 : (0 : ℚ) ≤ q := le_trans (by exact_mod_cast hn) h
  rw [int_trunc_of_nonneg h0]
  exact Int.le_floor.mpr h

lemma int_trunc_le_self {q : ℚ} (h : 0 ≤ q) : (int_trunc q : ℚ) ≤ q := by
  rw [int_trunc_of_nonneg h]
  exact Int.floor_le q

/-- C7 counterexample: with a category multiplier of 1/32 (exactly
representable in floating point) both the easy and the medium base XP
truncate to 0 and are clamped to the minimum of 1, so easy < medium does
not give strictly smaller XP. -/
theorem calculate_task_xp_mono_cex :
    difficulty_rank .easy < difficulty_rank .medium ∧
    calculate_task_xp .easy (1/32) .low 1 = 1 ∧
    calculate_task_xp .medium (1/32) .low 1 = 1 := by
  norm_num [calculate_task_xp, int_trunc, base_xp, priority_bonus, difficulty_rank]

/-- C7 (amended): strict monotonicity of calculate_task_xp in difficulty
(easy < medium < hard < expert) holds for every category multiplier ≥ 1,
every priority and every code-producible timing modifier; for category
multipliers below 1 the per-step truncation can collapse neighbouring
difficulties. -/
theorem calculate_task_xp_strict_mono :
    ∀ (d1 d2 : Difficulty) (m : ℚ) (p : Priority) (t : ℚ),
      1 ≤ m → t ∈ timing_values →
      d1 ≠ .other → d2 ≠ .other →
      difficulty_rank d1 < difficulty_rank d2 →
      calculate_task_xp d1 m p t < calculate_task_xp d2 m p t := by
  intro d1 d2 m p t hm ht h1 h2 hrank
  have hm0 : (0 : ℚ) ≤ m := le_trans zero_le_one hm
  have hp1 : (1 : ℚ) ≤ priority_bonus p := by
    cases p <;> norm_num [priority_bonus]
  have hp0 : (0 : ℚ) ≤ priority_bonus p := le_trans zero_le_one hp1
  have ht25 : (2/5 : ℚ) ≤ t := by
    simp only [timing_values, List.mem_cons, List.not_mem_nil, or_false] at ht
    rcases ht with rfl | rfl | rfl | rfl | rfl | rfl <;> norm_num
  have ht0 : (0 : ℚ) ≤ t := le_trans (by norm_num) ht25
  have hb1 : (10 : ℤ) ≤ base_xp d1 := by
    cases d1 <;> norm_num [base_xp]
  have hgap : base_xp d1 + 10 ≤ base_xp d2 := by
    cases d1 <;> cases d2 <;> simp_all [difficulty_rank, base_xp]
  simp only [calculate_task_xp]
  set A1 : ℤ := int_trunc ((base_xp d1 : ℚ) * m) with hA1def
  set A2 : ℤ := int_trunc ((base_xp d2 : ℚ) * m) with hA2def
  have hb1q : (10 : ℚ) ≤ (base_xp d1 : ℚ) := by exact_mod_cast hb1
  have hb1nn : (0 : ℚ) ≤ (base_xp d1 : ℚ) := le_trans (by norm_num) hb1q
  have hA1 : (10 : ℤ) ≤ A1 :=
    int_trunc_ge_of_le (by norm_num)
      (le_trans hb1q (le_mul_of_one_le_right hb1nn hm))
  have hA1q : (A1 : ℚ) ≤ (base_xp d1 : ℚ) * m :=
    int_trunc_le_self (mul_nonneg hb1nn hm0)
  have hgapq : (base_xp d1 : ℚ) + 10 ≤ (base_xp d2 : ℚ) := by exact_mod_cast hgap
  have hA2 : A1 + 10 ≤ A2 := by
    apply int_trunc_ge_of_le (by omega)
    have e1 : ((base_xp d1 : ℚ) + 10) * m ≤ (base_xp d2 : ℚ) * m :=
      mul_le_mul_of_nonneg_right hgapq hm0
    have e2 : (10 : ℚ) ≤ 10 * m := by linarith
    push_cast
    nlinarith [hA1q]
  have hA1nn : (0 : ℚ) ≤ (A1 : ℚ) := by exact_mod_cast le_trans (by norm_num) hA1
  set C1 : ℤ := int_trunc ((A1 : ℚ) * priority_bonus p) with hC1def
  set C2 : ℤ := int_trunc ((A2 : ℚ) * priority_bonus p) with hC2def
  have hC1 : (10 : ℤ) ≤ C1 :=
    int_trunc_ge_of_le (by norm_num)
      (le_trans (by exact_mod_cast hA1) (le_mul_of_one_le_right hA1nn hp1))
  have hC1q : (C1 : ℚ) ≤ (A1 : ℚ) * priority_bonus p :=
    int_trunc_le_self (mul_nonneg hA1nn hp0)
  have hC2 : C1 + 10 ≤ C2 := by
    apply int_trunc_ge_of_le (by omega)
    have e1 : ((A1 : ℚ) + 10) * priority_bonus p ≤ (A2 : ℚ) * priority_bonus p := by
      apply mul_le_mul_of_nonneg_right ?_ hp0
      exact_mod_cast hA2
    have e2 : (10 : ℚ) ≤ 10 * priority_bonus p := by linarith
    push_cast
    nlinarith [hC1q]
  have hC1nn : (0 : ℚ) ≤ (C1 : ℚ) := by exact_mod_cast le_trans (by norm_num) hC1
  set F1 : ℤ := int_trunc ((C1 : ℚ) * t) with hF1def
  set F2 : ℤ := int_trunc ((C2 : ℚ) * t) with hF2def
  have hF1 : (4 : ℤ) ≤ F1 := by
    apply int_trunc_ge_of_le (by norm_num)
    have : (10 : ℚ) * (2/5) ≤ (C1 : ℚ) * t :=
      mul_le_mul (by exact_mod_cast hC1) ht25 (by norm_num) hC1nn
    push_cast
    linarith
  have hF1q : (F1 : ℚ) ≤ (C1 : ℚ) * t := int_trunc_le_self (mul_nonneg hC1nn ht0)
  have hF2 : F1 + 1 ≤ F2 := by
    apply int_trunc_ge_of_le (by omega)
    have e1 : ((C1 : ℚ) + 10) * t ≤ (C2 : ℚ) * t := by
      apply mul_le_mul_of_nonneg_right ?_ ht0
      exact_mod_cast hC2
    have e2 : (4 : ℚ) ≤ 10 * t := by linarith
    push_cast
    nlinarith [hF1q]
  rw [max_eq_left (by omega : (1 : ℤ) ≤ F1), max_eq_left (by omega : (1 : ℤ) ≤ F2)]
  omega

theorem calculate_task_xp_strict_mono_witness :
    calculate_task_xp .easy 1 .low 1 < calculate_task_xp .medium 1 .low 1 :=
  calculate_task_xp_strict_mono .easy .medium 1 .low 1 (le_refl 1)
    (by norm_num [timing_values]) (by decide) (by decide) (by decide)

/-- The simulation invariant relating a walk of `recalc_go` over a
sorted date list to repeated `update_streak` calls from any state whose
profile agrees with the accumulator: current streaks coincide and the
profile's longest streak is the accumulator's longest-closed-run maxed
with the current run. -/
lemma run_recalc_invariant :
    ∀ (dates : List ℤ) (cur long : ℕ) (s : EngineState),
      s.profile.current_streak = cur →
      s.profile.longest_streak = max long cur →
      (s.profile.last_activity_date = none → cur = 0) →
      opt_chain s.profile.last_activity_date dates →
      (run_streak_updates dates s).profile.current_streak =
        (recalc_go dates cur long s.profile.last_activity_date).1 ∧
      (run_streak_updates dates s).profile.longest_streak =
        max (recalc_go dates cur long s.profile.last_activity_date).2
          (recalc_go dates cur long s.profile.last_activity_date).1 := by
  intro dates
  induction dates with
  | nil =>
    intro cur long s hc hl _ _
    simpa [run_streak_updates, recalc_go] using ⟨hc, hl⟩
  | cons d rest ih =>
    intro cur long s hc hl hnone hchain
    have hfold : run_streak_updates (d :: rest) s =
        run_streak_updates rest (update_streak d s).1 := by
      simp [run_streak_updates]
    cases hlast : s.profile.last_activity_date with
    | none =>
      have hcur0 : cur = 0 := hnone hlast
      subst hcur0
      have hstep : (update_streak d s).1.profile =
          { s.profile with
            current_streak := 1
            longest_streak := max s.profile.longest_streak 1
            last_activity_date := some d } := by
        simp [update_streak, hlast]
      have hch : List.Chain (· < ·) d rest := by
        rw [hlast] at hchain
        exact hchain
      have h := ih 1 long (update_streak d s).1
        (by rw [hstep]) (by rw [hstep]; simp [hl]) (by rw [hstep]; simp)
        (by rw [hstep]; exact hch)
      rw [hstep] at h
      rw [hfold]
      simpa [recalc_go] using h
    | some x =>
      have hxchain : List.Chain (· < ·) x (d :: rest) := by
        rw [hlast] at hchain
        exact hchain
      obtain ⟨hxd, hch⟩ := List.chain_cons.mp hxchain
      have hxne : ¬ x = d := by omega
      by_cases hx1 : x = d - 1
      · subst hx1
        have hstep : (update_streak d s).1.profile =
            { s.profile with
              current_streak := s.profile.current_streak + 1
              longest_streak := max s.profile.longest_streak (s.profile.current_streak + 1)
              last_activity_date := some d } := by
          simp [update_streak, hlast, hxne]
        have h := ih (cur + 1) long (update_streak d s).1
          (by rw [hstep]; simp [hc])
          (by
            rw [hstep]
            simp [hc, hl, Nat.max_assoc, Nat.max_eq_right (Nat.le_succ cur)])
          (by rw [hstep]; simp)
          (by rw [hstep]; exact hch)
        rw [hstep] at h
        rw [hfold]
        simpa [recalc_go] using h
      · have hstep : (update_streak d s).1.profile =
            { s.profile with
              current_streak := 1
              longest_streak := max s.profile.longest_streak 1
              last_activity_date := some d } := by
          simp [update_streak, hlast, hxne, hx1]
        have h := ih 1 (max long cur) (update_streak d s).1
          (by rw [hstep])
          (by rw [hstep]; simp [hl])
          (by rw [hstep]; simp)
          (by rw [hstep]; exact hch)
        rw [hstep] at h
        rw [hfold]
        simpa [recalc_go, hx1] using h

/-- C8: recalculate_streak over a sorted deduplicated completion-date
history computes exactly the current_streak and longest_streak that
repeated daily update_streak calls on the same history produce from a
fresh profile; in particular 3 consecutive days, a gap, then 1 day gives
current_streak = 1 and longest_streak = 3. -/
theorem recalculate_streak_matches :
    (∀ dates : List ℤ, List.Chain' (· < ·) dates →
      (run_streak_updates dates { profile := fresh_profile, logs := [] }).profile.current_streak =
        (recalculate_streak dates).1 ∧
      (run_streak_updates dates { profile := fresh_profile, logs := [] }).profile.longest_streak =
        (recalculate_streak dates).2.1) ∧
    recalculate_streak [0, 1, 2, 5] = (1, 3, some 5) := by
  constructor
  · intro dates hch
    have h := run_recalc_invariant dates 0 0 { profile := fresh_profile, logs := [] }
      rfl rfl (fun _ => rfl) hch
    cases dates with
    | nil => exact ⟨rfl, rfl⟩
    | cons d rest => simpa [recalculate_streak] using h
  · decide

theorem recalculate_streak_matches_witness :
    List.Chain' (· < ·) ([0, 1, 2, 5] : List ℤ) ∧
    (run_streak_updates [0, 1, 2, 5]
        { profile := fresh_profile, logs := [] }).profile.current_streak =
      (recalculate_streak [0, 1, 2, 5]).1 :=
  ⟨by norm_num [List.chain'_cons],
   (recalculate_streak_matches.1 [0, 1, 2, 5] (by norm_num [List.chain'_cons])).1⟩

end ProgressApp
